import Mathlib

/-!
Shallow embedding of `src/create_base_map.py` (repository `Create_Base_Maps`).

The script is a single straight-line rendering pipeline.  We embed:
* the string manipulation of the file name (`os.path.basename`,
  `os.path.splitext`, `str.replace`, `str.title`, `os.path.join`) over
  `List Char` / `String`;
* the numeric layout (bounding box, 20% padding, `np.linspace` ticks,
  scale-bar placement) over `ℚ`;
* the CRS handling (`GeoDataFrame.set_crs(...).to_crs(...)`) as an
  `Except`-valued step;
* the `__main__` entry point as a pure function from the stdin line and
  a file-existence oracle to a record of its exit code and side effects.
-/

namespace CreateBaseMap

/-! ## Characters used by the entry point's input cleaning -/

/-- The double-quote character. -/
def dquote : Char := Char.ofNat 34

/-- The single-quote character. -/
def squote : Char := Char.ofNat 39

/-- Python `str.isspace` on the ASCII whitespace characters recognised by
`str.strip()` with no argument: space, tab, newline, carriage return,
vertical tab, form feed. -/
def pyIsSpace (c : Char) : Bool :=
  c == ' ' || c == Char.ofNat 9 || c == Char.ofNat 10 || c == Char.ofNat 13 ||
  c == Char.ofNat 11 || c == Char.ofNat 12

/-- Strip every leading and trailing character satisfying `p` from a list,
the semantics of Python `str.strip(chars)`. -/
def stripWhile (p : Char → Bool) (l : List Char) : List Char :=
  ((l.dropWhile p).reverse.dropWhile p).reverse

/-- `shapefile_path.strip()` (line 127): strip surrounding whitespace. -/
def pyStrip (s : String) : String :=
  String.mk (stripWhile pyIsSpace s.data)

/-- `shapefile_path.strip('"\'')` (line 130): strip any surrounding mix of
single and double quotes. -/
def stripQuotes (s : String) : String :=
  String.mk (stripWhile (fun c => c == dquote || c == squote) s.data)

/-! ## `os.path` (POSIX semantics) -/

/-- `os.path.basename`: the part of the path after the last separator. -/
def basenameL (l : List Char) : List Char :=
  (l.reverse.takeWhile (fun c => c ≠ '/')).reverse

/-- Index of the last `'.'` in `l`, if any. -/
def lastDotIdx? (l : List Char) : Option Nat :=
  ((List.range l.length).filter (fun i => l.getD i ' ' == '.')).getLast?

/-- The root part of CPython `os.path.splitext` applied to a basename
(no separator present): drop the final `".ext"` unless every character
before the last dot is itself a dot. -/
def splitextRootL (l : List Char) : List Char :=
  match lastDotIdx? l with
  | none => l
  | some d => if (List.range d).any (fun j => l.getD j ' ' != '.') then l.take d else l

/-- Line 21: `os.path.splitext(os.path.basename(shapefile_path))[0]`. -/
def shapefileNameOf (p : String) : String :=
  String.mk (splitextRootL (basenameL p.data))

/-- `os.path.join` for two components, POSIX semantics: an absolute second
component wins; otherwise insert a separator unless the first component is
empty or already ends with one. -/
def joinPath (a b : String) : String :=
  if b.data.head? = some '/' then b
  else if a.data = [] ∨ a.data.getLast? = some '/' then a ++ b
  else a ++ "/" ++ b

/-! ## Python `str.replace` and `str.title` -/

/-- `shapefile_name.replace('_', ' ')` (line 23): a single-character
pattern, hence a character-wise map. -/
def replaceUnderscores (s : String) : String :=
  String.mk (s.data.map (fun c => if c = '_' then ' ' else c))

/-- The character fold of CPython `str.title` (restricted to ASCII letters):
an alphabetic character is uppercased when the previous character was not
alphabetic and lowercased otherwise; other characters pass through and
reset the state. -/
def pyTitleGo (prevCased : Bool) : List Char → List Char
  | [] => []
  | c :: cs =>
    if c.isAlpha then
      (if prevCased then c.toLower else c.toUpper) :: pyTitleGo true cs
    else
      c :: pyTitleGo false cs

/-- `str.title` (line 23). -/
def pyTitle (s : String) : String :=
  String.mk (pyTitleGo false s.data)

mutual

/-- Word-level reading of title case, at the start of a word: the first
letter of each maximal alphabetic run is uppercased. -/
def titleStart : List Char → List Char
  | [] => []
  | c :: cs => if c.isAlpha then c.toUpper :: titleRest cs else c :: titleStart cs

/-- Word-level reading of title case, inside a word: the remaining letters
of the run are lowercased. -/
def titleRest : List Char → List Char
  | [] => []
  | c :: cs => if c.isAlpha then c.toLower :: titleRest cs else c :: titleStart cs

end

/-- "Each word capitalized": first letter of every word uppercase, the rest
of the word lowercase, non-letter characters untouched. -/
def titleCaseWords (s : String) : String :=
  String.mk (titleStart s.data)

/-- Line 23: `map_title = shapefile_name.replace('_', ' ').title()`. -/
def mapTitleOf (p : String) : String :=
  pyTitle (replaceUnderscores (shapefileNameOf p))

/-! ## CRS assignment and reprojection (line 26)

`gdf.set_crs(epsg=4326).to_crs(epsg=3857)`.  `GeoDataFrame.set_crs` with its
default `allow_override=False` raises a `ValueError` when the frame already
has a CRS that differs from the one passed; it succeeds when the frame has no
CRS or already has exactly the passed CRS. -/

/-- Model of `GeoDataFrame.set_crs(epsg=target)` (geopandas, default
`allow_override=False`) applied to data whose file-supplied CRS is
`current` (`none` when the file carries no CRS). -/
def setCrsModel (current : Option ℕ) (target : ℕ) : Except String ℕ :=
  match current with
  | none => .ok target
  | some c =>
    if c = target then .ok target
    else .error "ValueError: the GeoDataFrame already has a CRS"

/-- Line 26 as a whole: assign EPSG 4326, then reproject to EPSG 3857
(`to_crs` succeeds once a CRS is set). -/
def reprojectStep (fileCrs : Option ℕ) : Except String ℕ :=
  match setCrsModel fileCrs 4326 with
  | .ok _ => .ok 3857
  | .error e => .error e

/-! ## Numeric layout (lines 35-57, 81-100), over `ℚ` -/

/-- `gdf_wm.total_bounds` (line 35): west, south, east, north of the
reprojected geometry. -/
structure Bounds where
  west : ℚ
  south : ℚ
  east : ℚ
  north : ℚ

/-- `np.linspace lo hi num`: `num` evenly spaced samples, endpoints
included (`lo + i*(hi-lo)/(num-1)`; over `ℚ` the last sample is exactly
`hi`, matching numpy's explicit endpoint assignment). -/
def linspace (lo hi : ℚ) (num : ℕ) : List ℚ :=
  (List.range num).map (fun i => lo + (hi - lo) * i / ((num : ℚ) - 1))

/-- Everything the script computes from the reprojected bounding box:
axis limits (lines 46-47), tick positions (lines 56-57), scale-bar
geometry (lines 81-99). -/
structure Layout where
  xlimLo : ℚ
  xlimHi : ℚ
  ylimLo : ℚ
  ylimHi : ℚ
  xticks : List ℚ
  yticks : List ℚ
  scalebarLength : ℚ
  scalebarXStart : ℚ
  scalebarY : ℚ
  capXs : List ℚ
  labelX : ℚ
  labelY : ℚ

/-- Lines 35-57 and 81-99 of `create_base_map`, verbatim arithmetic. -/
def computeLayout (b : Bounds) : Layout :=
  let x_range := b.east - b.west
  let y_range := b.north - b.south
  let x_padding := x_range * 0.2
  let y_padding := y_range * 0.2
  let scalebar_length : ℚ := 15000
  let scalebar_x_start := b.east + x_padding - scalebar_length - 5000
  let scalebar_y := b.south - y_padding + y_range * 0.05
  { xlimLo := b.west - x_padding
    xlimHi := b.east + x_padding
    ylimLo := b.south - y_padding
    ylimHi := b.north + y_padding
    xticks := linspace (b.west - x_padding) (b.east + x_padding) 6
    yticks := linspace (b.south - y_padding) (b.north + y_padding) 6
    scalebarLength := scalebar_length
    scalebarXStart := scalebar_x_start
    scalebarY := scalebar_y
    capXs := [scalebar_x_start, scalebar_x_start + scalebar_length]
    labelX := scalebar_x_start + scalebar_length / 2
    labelY := scalebar_y + 500 }

/-- Line 64, `ax.set_xticks(x_ticks)`: the values handed to the axis are
the Web Mercator tick positions themselves. -/
def setXticksArg (b : Bounds) : List ℚ :=
  (computeLayout b).xticks

/-- Lines 60 and 66: the longitudes used for the x tick label text are the
inverse-transformed tick positions (`inv` models the longitude component
of the EPSG 3857 to EPSG 4326 transform, which depends on x alone). -/
def xTickLabelLons (inv : ℚ → ℚ) (b : Bounds) : List ℚ :=
  (computeLayout b).xticks.map inv

/-! ## The whole function run and the entry point -/

/-- Observable outcome of one `create_base_map` call. `basemapContent`
stands for whatever tile pixels the live tile service returned
(`ctx.add_basemap`, line 50); it feeds the rendered image but nothing
else. -/
structure RunResult where
  outputPath : String
  writtenFiles : List String
  dirsCreated : List String
  printed : List String
  tileFetches : ℕ
  title : String
  layout : Layout
  basemapContent : ℕ

/-- `create_base_map(shapefile_path, output_dir)` (lines 9-122), as a pure
function of the path arguments, the reprojected bounds of the geometry the
file contained, and the tile content served by the network. -/
def create_base_map (shapefile_path output_dir : String) (b : Bounds) (tiles : ℕ) :
    RunResult :=
  let shapefile_name := shapefileNameOf shapefile_path
  let map_title := pyTitle (replaceUnderscores shapefile_name)
  let output_path := joinPath output_dir (shapefile_name ++ "_basemap.png")
  { outputPath := output_path
    writtenFiles := [output_path]
    dirsCreated := [output_dir]
    printed := ["Base map saved to: " ++ output_path]
    tileFetches := 1
    title := map_title
    layout := computeLayout b
    basemapContent := tiles }

/-- The hard-coded output directory of the entry point (line 138). -/
def mainOutputDir : String :=
  "C:\\Users\\NagaiLab\\Gemini_conversation\\Create_Base_Maps\\output_base_maps"

/-- Observable outcome of one run of the `__main__` block. -/
structure MainResult where
  exitCode : ℕ
  checkedPath : String
  stdout : List String
  fileWrites : List String
  dirsCreated : List String
  tileFetches : ℕ
  processed : Option RunResult

/-- The `__main__` block (lines 124-147) as a pure function of the line
read from standard input, a file-existence oracle, and the data a
successful run would go on to use. -/
def mainModel (line : String) (fileExists : String → Bool) (b : Bounds) (tiles : ℕ) :
    MainResult :=
  let prompt := "Please enter the path to your shapefile/GeoJSON file:"
  let shapefile_path := stripQuotes (pyStrip line)
  if fileExists shapefile_path then
    let r := create_base_map shapefile_path mainOutputDir b tiles
    { exitCode := 0
      checkedPath := shapefile_path
      stdout := [prompt, "Processing shapefile: " ++ shapefile_path,
                 "Output will be saved to: " ++ mainOutputDir] ++ r.printed
      fileWrites := r.writtenFiles
      dirsCreated := mainOutputDir :: r.dirsCreated
      tileFetches := r.tileFetches
      processed := some r }
  else
    { exitCode := 1
      checkedPath := shapefile_path
      stdout := [prompt, "Error: File not found at " ++ shapefile_path]
      fileWrites := []
      dirsCreated := []
      tileFetches := 0
      processed := none }

/-! ## Helper lemmas -/

/-- The step between consecutive samples of a six-point linspace over
`[lo, hi]`: the range divided by 5. -/
def tickStep (lo hi : ℚ) : ℚ := (hi - lo) / 5

/-- A six-point linspace written out: endpoints included, consecutive
samples differ by `tickStep lo hi`. -/
theorem linspace_six (a b : ℚ) : linspace a b 6 =
    [a, a + tickStep a b, a + 2 * tickStep a b, a + 3 * tickStep a b,
     a + 4 * tickStep a b, b] := by
  have h6 : List.range 6 = [0, 1, 2, 3, 4, 5] := by decide
  simp [linspace, tickStep, h6]
  norm_num
  ring_nf
  simp [mul_comm]

/-- Every character of a POSIX basename differs from the separator. -/
theorem ne_slash_of_mem_basenameL {c : Char} {l : List Char}
    (h : c ∈ basenameL l) : c ≠ '/' := by
  have h' := List.mem_reverse.mp h
  have hp := List.mem_takeWhile_imp h'
  simpa using hp

/-- Removing the extension keeps a sublist of the characters. -/
theorem mem_of_mem_splitextRootL {c : Char} {l : List Char}
    (h : c ∈ splitextRootL l) : c ∈ l := by
  unfold splitextRootL at h
  cases hd : lastDotIdx? l with
  | none => rw [hd] at h; exact h
  | some d =>
    rw [hd] at h
    dsimp only at h
    by_cases hb : ((List.range d).any fun j => l.getD j ' ' != '.') = true
    · rw [if_pos hb] at h; exact List.mem_of_mem_take h
    · rw [if_neg hb] at h; exact h

/-- The character fold of `str.title` agrees with the word-level
description: the `false` state behaves as a word start, the `true` state
as a word continuation. -/
theorem pyTitleGo_eq_titleRuns (l : List Char) :
    pyTitleGo false l = titleStart l ∧ pyTitleGo true l = titleRest l := by
  induction l with
  | nil => exact ⟨rfl, rfl⟩
  | cons c cs ih =>
    by_cases h : c.isAlpha
    · simp [pyTitleGo, titleStart, titleRest, h, ih.2]
    · simp [pyTitleGo, titleStart, titleRest, h, ih.1]

/-! ## Claim theorems -/

/-- C1: for every reprojected bounding box (west, south, east, north), the
axis limits are exactly west − 0.2·(east−west), east + 0.2·(east−west) in x
and south − 0.2·(north−south), north + 0.2·(north−south) in y, each axis
padded independently by 20% of its own range. -/
theorem c1_axis_limits (b : Bounds) :
    (computeLayout b).xlimLo = b.west - 0.2 * (b.east - b.west) ∧
    (computeLayout b).xlimHi = b.east + 0.2 * (b.east - b.west) ∧
    (computeLayout b).ylimLo = b.south - 0.2 * (b.north - b.south) ∧
    (computeLayout b).ylimHi = b.north + 0.2 * (b.north - b.south) := by
  refine ⟨?_, ?_, ?_, ?_⟩ <;> simp [computeLayout] <;> ring

/-- C3: each axis gets exactly 6 tick positions, evenly spaced from the
padded lower limit to the padded upper limit inclusive with step equal to
the padded range divided by 5; the values handed to the axis are the
Web Mercator positions themselves, and the back-conversion to degrees is
applied to those same positions only to make label text. -/
theorem c3_ticks (b : Bounds) (inv : ℚ → ℚ) :
    (computeLayout b).xticks.length = 6 ∧
    (computeLayout b).yticks.length = 6 ∧
    (computeLayout b).xticks =
      [(computeLayout b).xlimLo,
       (computeLayout b).xlimLo + tickStep (computeLayout b).xlimLo (computeLayout b).xlimHi,
       (computeLayout b).xlimLo + 2 * tickStep (computeLayout b).xlimLo (computeLayout b).xlimHi,
       (computeLayout b).xlimLo + 3 * tickStep (computeLayout b).xlimLo (computeLayout b).xlimHi,
       (computeLayout b).xlimLo + 4 * tickStep (computeLayout b).xlimLo (computeLayout b).xlimHi,
       (computeLayout b).xlimHi] ∧
    (computeLayout b).yticks =
      [(computeLayout b).ylimLo,
       (computeLayout b).ylimLo + tickStep (computeLayout b).ylimLo (computeLayout b).ylimHi,
       (computeLayout b).ylimLo + 2 * tickStep (computeLayout b).ylimLo (computeLayout b).ylimHi,
       (computeLayout b).ylimLo + 3 * tickStep (computeLayout b).ylimLo (computeLayout b).ylimHi,
       (computeLayout b).ylimLo + 4 * tickStep (computeLayout b).ylimLo (computeLayout b).ylimHi,
       (computeLayout b).ylimHi] ∧
    setXticksArg b = (computeLayout b).xticks ∧
    xTickLabelLons inv b = (setXticksArg b).map inv := by
  refine ⟨?_, ?_, ?_, ?_, rfl, rfl⟩
  · show (linspace _ _ 6).length = 6
    rw [linspace_six]
    rfl
  · show (linspace _ _ 6).length = 6
    rw [linspace_six]
    rfl
  · show linspace _ _ 6 = _
    rw [linspace_six]
    simp [computeLayout]
  · show linspace _ _ 6 = _
    rw [linspace_six]
    simp [computeLayout]

/-- C7: the scale bar is 15000 map-units long, its right end sits exactly
5000 map-units left of the right padded limit, its height is the bottom
padded limit plus 0.05 of the unpadded y-range, end-cap ticks sit at both
ends, and the label is horizontally centred over the bar. -/
theorem c7_scalebar (b : Bounds) :
    (computeLayout b).scalebarLength = 15000 ∧
    (computeLayout b).scalebarXStart + (computeLayout b).scalebarLength =
      (computeLayout b).xlimHi - 5000 ∧
    (computeLayout b).scalebarY =
      (computeLayout b).ylimLo + 0.05 * (b.north - b.south) ∧
    (computeLayout b).capXs =
      [(computeLayout b).scalebarXStart,
       (computeLayout b).scalebarXStart + (computeLayout b).scalebarLength] ∧
    (computeLayout b).labelX =
      ((computeLayout b).scalebarXStart +
        ((computeLayout b).scalebarXStart + (computeLayout b).scalebarLength)) / 2 := by
  refine ⟨rfl, ?_, ?_, rfl, ?_⟩ <;> simp [computeLayout] <;> ring

/-- C10: the left end of the scale bar falls strictly left of the left
padded limit exactly when the reprojected x-range is below 20000/1.4
map-units, and the whole bar fits inside the x limits exactly when the
x-range is at least 20000/1.4 map-units. -/
theorem c10_scalebar_overflow (b : Bounds) :
    (b.east - b.west < 20000 / 1.4 ↔
      (computeLayout b).scalebarXStart < (computeLayout b).xlimLo) ∧
    (20000 / 1.4 ≤ b.east - b.west ↔
      ((computeLayout b).xlimLo ≤ (computeLayout b).scalebarXStart ∧
       (computeLayout b).scalebarXStart + (computeLayout b).scalebarLength ≤
         (computeLayout b).xlimHi)) := by
  simp only [computeLayout]
  norm_num
  constructor
  · constructor <;> intro h <;> linarith
  · constructor
    · intro h
      constructor <;> linarith
    · intro h
      linarith [h.1]

/-- C8: the output file path depends on the input path and the output
directory alone; two runs over the same paths agree on the file they
write, whatever geometry bounds or tile content each run saw, so the
second run overwrites the first run's file. -/
theorem c8_deterministic_path (p d : String) (b₁ b₂ : Bounds) (t₁ t₂ : ℕ) :
    (create_base_map p d b₁ t₁).outputPath = (create_base_map p d b₂ t₂).outputPath ∧
    (create_base_map p d b₁ t₁).writtenFiles = (create_base_map p d b₂ t₂).writtenFiles :=
  ⟨rfl, rfl⟩

/-- C5: the map title is the input's base name, extension removed, with
underscores turned into spaces and each word capitalized (first letter of
every maximal letter run uppercased, the rest lowercased). -/
theorem c5_title (p d : String) (b : Bounds) (t : ℕ) :
    (create_base_map p d b t).title =
      titleCaseWords (replaceUnderscores (shapefileNameOf p)) :=
  congrArg String.mk (pyTitleGo_eq_titleRuns (replaceUnderscores (shapefileNameOf p)).data).1

/-- C6 counterexample: a geometry file that already carries a CRS other
than EPSG 4326 (here EPSG 32645) makes `set_crs(epsg=4326)` raise, so the
reprojection step fails, refuting the claim as stated. -/
theorem c6_crs_counterexample :
    reprojectStep (some 32645) =
      Except.error "ValueError: the GeoDataFrame already has a CRS" := rfl

/-- C6 amended: the pipeline assigns EPSG 4326 and reprojects to EPSG 3857
without failing exactly when the input carries no CRS or already carries
EPSG 4326; any other file-supplied CRS makes `set_crs` raise. -/
theorem c6_crs_amended (fileCrs : Option ℕ) :
    reprojectStep fileCrs = Except.ok 3857 ↔
      (fileCrs = none ∨ fileCrs = some 4326) := by
  cases fileCrs with
  | none => simp [reprojectStep, setCrsModel]
  | some c =>
    by_cases h : c = 4326 <;> simp [reprojectStep, setCrsModel, h]

/-- C2: the function writes exactly one file, whose path is the output
directory joined with the input's base name, extension removed and
underscores untouched, suffixed with "_basemap.png"; when the directory
is nonempty and does not already end in a separator, the join is plain
concatenation around one separator. -/
theorem c2_output_file (p d : String) (b : Bounds) (t : ℕ) :
    (create_base_map p d b t).writtenFiles =
      [joinPath d (shapefileNameOf p ++ "_basemap.png")] ∧
    (d.data ≠ [] → d.data.getLast? ≠ some '/' →
      (create_base_map p d b t).outputPath =
        d ++ "/" ++ (shapefileNameOf p ++ "_basemap.png")) := by
  refine ⟨rfl, fun hne hsep => ?_⟩
  show joinPath d (shapefileNameOf p ++ "_basemap.png") = _
  have hhead : (shapefileNameOf p ++ "_basemap.png").data.head? ≠ some '/' := by
    rw [String.data_append]
    cases hs : (shapefileNameOf p).data with
    | nil => simp
    | cons c cs =>
      simp only [List.cons_append, List.head?_cons]
      intro hc
      have hmem : c ∈ splitextRootL (basenameL p.data) := by
        have : c ∈ c :: cs := List.mem_cons_self c cs
        rw [← hs] at this
        exact this
      have := ne_slash_of_mem_basenameL (mem_of_mem_splitextRootL hmem)
      exact this (Option.some.inj hc)
  unfold joinPath
  rw [if_neg hhead, if_neg]
  intro hor
  rcases hor with h1 | h2
  · exact hne h1
  · exact hsep h2

/-- C2 witness: a concrete run writing `out/area_1_basemap.png`. -/
theorem c2_output_file_witness :
    (create_base_map "data/area_1.shp" "out" ⟨0, 0, 1, 1⟩ 0).outputPath =
      "out" ++ "/" ++ (shapefileNameOf "data/area_1.shp" ++ "_basemap.png") :=
  (c2_output_file "data/area_1.shp" "out" ⟨0, 0, 1, 1⟩ 0).2 (by decide) (by decide)

/-- C4: the entry point exits with status 1 when the cleaned input path
does not exist and with status 0 when it does; in the failure case it
writes no file, creates no directory, fetches no tiles, and its output is
the prompt followed by an error message naming the path. -/
theorem c4_exit_codes (line : String) (fileExists : String → Bool)
    (b : Bounds) (t : ℕ) :
    (mainModel line fileExists b t).exitCode =
      (if fileExists (stripQuotes (pyStrip line)) = true then 0 else 1) ∧
    (fileExists (stripQuotes (pyStrip line)) = false →
      (mainModel line fileExists b t).fileWrites = [] ∧
      (mainModel line fileExists b t).dirsCreated = [] ∧
      (mainModel line fileExists b t).tileFetches = 0 ∧
      (mainModel line fileExists b t).stdout =
        ["Please enter the path to your shapefile/GeoJSON file:",
         "Error: File not found at " ++ stripQuotes (pyStrip line)]) := by
  by_cases h : fileExists (stripQuotes (pyStrip line)) = true <;>
    simp [mainModel, h]

/-- C4 witness: a run whose oracle reports the path missing. -/
theorem c4_exit_codes_witness :
    (mainModel "missing.shp" (fun _ => false) ⟨0, 0, 1, 1⟩ 0).fileWrites = [] ∧
    (mainModel "missing.shp" (fun _ => false) ⟨0, 0, 1, 1⟩ 0).tileFetches = 0 :=
  ⟨((c4_exit_codes "missing.shp" (fun _ => false) ⟨0, 0, 1, 1⟩ 0).2 rfl).1,
   ((c4_exit_codes "missing.shp" (fun _ => false) ⟨0, 0, 1, 1⟩ 0).2 rfl).2.2.1⟩

/-- C9: the path checked for existence is the stdin line with surrounding
whitespace stripped and then surrounding quote characters stripped; when
that cleaned path exists the run completes with status 0 and processes
exactly that path. -/
theorem c9_quote_strip (line : String) (fileExists : String → Bool)
    (b : Bounds) (t : ℕ) :
    (mainModel line fileExists b t).checkedPath = stripQuotes (pyStrip line) ∧
    (fileExists (stripQuotes (pyStrip line)) = true →
      (mainModel line fileExists b t).exitCode = 0 ∧
      (mainModel line fileExists b t).processed =
        some (create_base_map (stripQuotes (pyStrip line)) mainOutputDir b t)) := by
  by_cases h : fileExists (stripQuotes (pyStrip line)) = true <;>
    simp [mainModel, h]

/-- C9 witness: a double-quoted path to an existing file is accepted and
the unquoted path is the one processed. -/
theorem c9_quote_strip_witness :
    (mainModel "\"/data/area.shp\"" (fun s => s == "/data/area.shp")
        ⟨0, 0, 1, 1⟩ 0).checkedPath = "/data/area.shp" ∧
    (mainModel "\"/data/area.shp\"" (fun s => s == "/data/area.shp")
        ⟨0, 0, 1, 1⟩ 0).exitCode = 0 :=
  ⟨((c9_quote_strip "\"/data/area.shp\"" (fun s => s == "/data/area.shp")
      ⟨0, 0, 1, 1⟩ 0).1).trans (by decide),
   ((c9_quote_strip "\"/data/area.shp\"" (fun s => s == "/data/area.shp")
      ⟨0, 0, 1, 1⟩ 0).2 (by decide)).1⟩

end CreateBaseMap
